import Mathlib

/-!
Verification development for the reputa on-chain credit-scoring service.

The Python source is shallowly embedded: dict records become structures,
floats become `ℚ` (exact rational arithmetic), ISO-8601 UTC timestamp
strings become epoch seconds (`ℤ`; lexicographic order on uniformly
formatted ISO strings coincides with chronological order), and the
current UTC time read by `datetime.utcnow()` becomes an explicit `now`
parameter.  Optional dict fields become `Option`; `x.get(key, default)`
becomes `Option.getD`.  Python `int(x)` truncation is `pyInt`,
`timedelta.days` is floor division of the second difference by 86400.
-/

namespace Reputa

/-- Python `int(x)` on a float: truncation toward zero. -/
def pyInt (q : ℚ) : ℤ := if 0 ≤ q then ⌊q⌋ else ⌈q⌉

/-- Convert a count of days since 1970-01-01 to a (year, month, day)
civil date (proleptic Gregorian calendar, as used by `datetime`). -/
def civilFromDays (days : ℤ) : ℤ × ℤ × ℤ :=
  let z := days + 719468
  let era := Int.fdiv z 146097
  let doe := z - era * 146097
  let yoe := Int.fdiv (doe - Int.fdiv doe 1460 + Int.fdiv doe 36524 - Int.fdiv doe 146096) 365
  let y := yoe + era * 400
  let doy := doe - (365 * yoe + Int.fdiv yoe 4 - Int.fdiv yoe 100)
  let mp := Int.fdiv (5 * doy + 2) 153
  let d := doy - Int.fdiv (153 * mp + 2) 5 + 1
  let m := mp + (if mp < 10 then 3 else -9)
  (if m ≤ 2 then y + 1 else y, m, d)

/-- The (year, month) pair of an epoch-second UTC timestamp
(`datetime.fromisoformat(ts).year/.month`). -/
def monthKey (ts : ℤ) : ℤ × ℤ :=
  let c := civilFromDays (Int.fdiv ts 86400)
  (c.1, c.2.1)

/-- Insert-or-overwrite into an association list, mirroring Python dict
assignment `d[k] = v` (an existing key keeps its position, a new key is
appended at the end). -/
def assocSet {β : Type} (l : List (String × β)) (k : String) (v : β) : List (String × β) :=
  match l with
  | [] => [(k, v)]
  | (k0, v0) :: rest => if k0 = k then (k0, v) :: rest else (k0, v0) :: assocSet rest k v

/-! ### Static configuration (config.py) -/

/-- config.py POAP_CONTRACT, lowercased at import time in classifiers.py. -/
def POAP_CONTRACT : String := "0x22c1f6050e56d2876009903609a2cc3fef83b415"

/-- config.py ENS_NAMEWRAPPER, lowercased at import time in classifiers.py. -/
def ENS_NAMEWRAPPER : String := "0xd4416b13d2b3a9abae7acd5d6c2bbdbe25686401"

/-- config.py BLUE_CHIP_NFTS (already lowercase in the source). -/
def BLUE_CHIP_NFTS : List String :=
  [ "0xbc4ca0eda7647a8ab7c2061c2e118a18a936f13d"
  , "0xb47e3cd837ddf8e4c57f05d70ab865de6e193bbb"
  , "0xed5af388653567af2f388e6224dc7c4b3241c544"
  , "0x60e4d786628fea6478f785a6d7e704777c86a7c6"
  , "0x49cf6f5d44e70224e2e23fdcdd2c053f30ada28b" ]

/-! ### Data model -/

/-- One NFT record as consumed by classifiers.py and scoring.py.
Fields mirror the Alchemy NFT payload keys that the source reads. -/
structure Classification where
  is_poap : Bool
  safelist : String
  is_ens : Bool
  deriving Repr, DecidableEq

structure NFT where
  contract_address : String
  contract_is_spam : Bool
  top_is_spam : Bool
  token_id : String
  name : Option String
  token_uri : Option String
  raw_token_uri : Option String
  tags : List String
  safelist_request_status : Option String
  floor_price : Option ℚ
  image_original_url : Option String
  image_cached_url : Option String
  image_thumbnail_url : Option String
  image_png_url : Option String
  raw_metadata_image : Option String
  classification : Option Classification
  deriving Repr, DecidableEq

structure Counts where
  total : ℕ
  poaps : ℕ
  legit : ℕ
  spam : ℕ
  ens : ℕ
  deriving Repr, DecidableEq

/-- Output of classify_nfts, and the `nfts` slot of the aggregated input. -/
structure NFTGroups where
  poaps : List NFT
  legit_nfts : List NFT
  ens_domains : List NFT
  counts : Counts
  deriving Repr, DecidableEq

/-- One asset transfer (alchemy_getAssetTransfers record); only the keys
the scoring core reads are modelled. `block_timestamp` is
`metadata.blockTimestamp` (absent ↦ `none`). -/
structure Transfer where
  asset : Option String
  value : Option ℚ
  block_timestamp : Option ℤ
  deriving Repr, DecidableEq

structure TransferBundle where
  incoming : List Transfer
  outgoing : List Transfer
  deriving Repr, DecidableEq

/-- Enriched token holding; only the fields the scorer reads. -/
structure EnrichedToken where
  value_usd : ℚ
  volatility_30d : Option ℚ
  deriving Repr, DecidableEq

/-- Output record of calculate_portfolio_concentration.  The two early
returns of the source omit `total_value_usd`; the scorer never reads it,
and those paths set it to 0 here. -/
structure Concentration where
  herfindahl_index : ℚ
  top_1_concentration : ℚ
  top_3_concentration : ℚ
  top_5_concentration : ℚ
  diversification_score : ℚ
  num_tokens : ℕ
  total_value_usd : ℚ
  deriving Repr, DecidableEq

structure TokensData where
  holdings : List EnrichedToken
  concentration : Concentration
  deriving Repr, DecidableEq

structure MixerCheck where
  has_mixer_interaction : Bool
  mixer_tx_count : ℕ
  deriving Repr, DecidableEq

structure DefiActivity where
  aave : Bool
  compound : Bool
  uniswap : Bool
  curve : Bool
  ethena : Bool
  morpho : Bool
  total_protocols : ℕ
  staking_events : ℕ
  deriving Repr, DecidableEq

structure StablecoinData where
  total_stablecoin_usd : ℚ
  deriving Repr, DecidableEq

structure DefiAnalysis where
  protocol_interactions : DefiActivity
  mixer_check : MixerCheck
  stablecoins : StablecoinData
  deriving Repr, DecidableEq

/-- One protocol event/transaction as stored in ProtocolStats
(`event_type`, `timestamp` (epoch seconds), `tx_hash`). -/
structure PTx where
  event_type : String
  timestamp : ℤ
  tx_hash : String
  deriving Repr, DecidableEq

/-- Per-contract aggregate of analyze_protocol_interactions. -/
structure ProtoEntry where
  protocol_name : String
  borrow_count : ℕ
  repay_count : ℕ
  liquidate_count : ℕ
  transactions : List PTx
  deriving Repr, DecidableEq

structure Summary where
  total_borrow_events : ℕ
  total_repay_events : ℕ
  total_liquidation_events : ℕ
  deriving Repr, DecidableEq

structure RiskIndicators where
  repayment_ratio : ℚ
  deriving Repr, DecidableEq

/-- Bitquery protocol analysis as consumed by the assessment/scoring
code.  `protocols` is a dict keyed by contract address, modelled as an
insertion-ordered association list.  A missing
`lending_history.protocol_analysis` corresponds to the all-empty value
(every lookup in the source uses a zero/empty default). -/
structure ProtocolAnalysis where
  protocols : List (String × ProtoEntry)
  summary : Summary
  risk_indicators : RiskIndicators
  deriving Repr, DecidableEq

/-- The aggregated wallet profile: the single input record of
scoring.calculate_credit_score.  The unused "wallet" address string is
omitted. -/
structure Aggregated where
  nfts : NFTGroups
  tokens : TokensData
  transfers : TransferBundle
  protocol_analysis : ProtocolAnalysis
  defi_analysis : DefiAnalysis
  eth_balance : ℚ
  deriving Repr, DecidableEq

end Reputa

namespace Reputa.Classifiers

open Reputa

/-- classifiers.py is_poap.  The Python token-URI lookup is a truthiness
`or` chain, so a present-but-empty top-level `tokenUri` falls through to
`raw.tokenUri`; substring containment is modelled with `splitOn`. -/
def is_poap (nft : NFT) : Bool :=
  if nft.contract_address.toLower = POAP_CONTRACT then true
  else
    let t0 := (nft.token_uri).getD ""
    let t1 := if t0 = "" then (nft.raw_token_uri).getD "" else t0
    let token_uri := t1.toLower
    if (token_uri.splitOn "poap.tech").length > 1 then true
    else nft.tags.any (fun t => (t.toLower.splitOn "poap").length > 1)

/-- classifiers.py is_spam (`isSpam` on the NFT or on its contract). -/
def is_spam (nft : NFT) : Bool :=
  nft.top_is_spam || nft.contract_is_spam

/-- classifiers.py safelist_status. -/
def safelist_status (nft : NFT) : String :=
  (nft.safelist_request_status).getD "unknown"

/-- classifiers.py is_ens. -/
def is_ens (nft : NFT) : Bool :=
  nft.contract_address.toLower = ENS_NAMEWRAPPER || ((nft.name).getD "").endsWith ".eth"

private def stripDataUrl (s : Option String) : Option String :=
  match s with
  | some str => if str.startsWith "data:" then none else some str
  | none => none

private def stripDataImageUrl (s : Option String) : Option String :=
  match s with
  | some str => if str.startsWith "data:image" then none else some str
  | none => none

/-- classifiers.py strip_onchain_data_fields (in-place dict mutation
modelled as a record update). -/
def strip_onchain_data_fields (nft : NFT) : NFT :=
  { nft with
    token_uri := stripDataUrl nft.token_uri
    raw_token_uri := stripDataUrl nft.raw_token_uri
    image_original_url := stripDataImageUrl nft.image_original_url
    image_cached_url := stripDataImageUrl nft.image_cached_url
    image_thumbnail_url := stripDataImageUrl nft.image_thumbnail_url
    image_png_url := stripDataImageUrl nft.image_png_url
    raw_metadata_image := stripDataImageUrl nft.raw_metadata_image }

/-- The per-NFT processing step of classify_nfts: strip inline data
payloads, then attach the classification record. -/
def process_nft (nft : NFT) : NFT :=
  let nft := strip_onchain_data_fields nft
  let c : Classification :=
    { is_poap := is_poap nft, safelist := safelist_status nft, is_ens := is_ens nft }
  { nft with classification := some c }

/-- The classification loop of classify_nfts, returning the four lists
(poaps, legit_nfts, spam_nfts, ens_domains) built by the Python `for`
loop, in order. -/
def classify_loop : List NFT → List NFT × List NFT × List NFT × List NFT
  | [] => ([], [], [], [])
  | nft :: rest =>
    let nft := process_nft nft
    let (poaps, legit, spam, ens) := classify_loop rest
    match nft.classification with
    | some c =>
      if c.is_poap then (nft :: poaps, nft :: legit, spam, ens)
      else if c.is_ens then (poaps, nft :: legit, spam, nft :: ens)
      else (poaps, nft :: legit, spam, ens)
    | none => (poaps, nft :: legit, spam, ens)

/-- classifiers.py classify_nfts.  The loop appends each processed NFT
to `legit_nfts` in all three branches; `spam_nfts` is declared but never
filled in this version of the classifier. -/
def classify_nfts (nfts : List NFT) : NFTGroups :=
  let r := classify_loop nfts
  { poaps := r.1
    legit_nfts := r.2.1
    ens_domains := r.2.2.2
    counts :=
      { total := nfts.length
        poaps := r.1.length
        legit := r.2.1.length
        spam := r.2.2.1.length
        ens := r.2.2.2.length } }

end Reputa.Classifiers

namespace Reputa.Services

open Reputa

/-! ### services.py calculate_volatility

The source returns `sqrt(variance) * 100` (a generally irrational
number).  To stay in exact rational arithmetic the embedding returns the
square of that value, `variance * 10000`; squaring is injective on the
nonnegative reals, so equality and distinctness of volatilities
correspond exactly to equality and distinctness of the embedded values.
The input is the list of fetched price points, each point's `value`
field (`none` when the key is missing). -/

/-- The comprehension
`[p.get('value', 0) for p in prices if p.get('value') is not None and p.get('value') != 0]`. -/
def price_values (prices : List (Option ℚ)) : List ℚ :=
  (prices.filterMap id).filter (fun v => v ≠ 0)

/-- The returns loop: for consecutive kept prices, when
`prev and cur and prev > 0` (Python truthiness), append
`(cur - prev) / prev`. -/
def daily_returns : List ℚ → List ℚ
  | p0 :: p1 :: rest =>
    (if p0 ≠ 0 ∧ p1 ≠ 0 ∧ 0 < p0 then [(p1 - p0) / p0] else []) ++ daily_returns (p1 :: rest)
  | _ => []

/-- Population variance `sum((r - mean)^2) / len(returns)` of a list. -/
def pop_variance (returns : List ℚ) : ℚ :=
  let mean := returns.sum / returns.length
  (returns.map (fun r => (r - mean) ^ 2)).sum / returns.length

/-- services.py calculate_volatility, embedded as the square of the
returned percentage (see the section comment). -/
def calculate_volatility_sq (prices : List (Option ℚ)) : Option ℚ :=
  if prices.length < 2 then none
  else
    let pv := price_values prices
    if pv.length < 2 then none
    else
      let returns := daily_returns pv
      if returns = [] then none
      else
        let variance := pop_variance returns
        if variance < 0 then none else some (variance * 10000)

/-- Modelled from the spec sentence for C6 (not from the source): daily
return `(P_t - P_{t-1}) / P_{t-1}` over consecutive positions of the
fetched series, skipping any adjacent pair in which either price is zero
or missing; null when fewer than 2 valid price points exist; otherwise
the squared percentage volatility `pop_variance * 10000`. -/
def volatility_spec_sq (prices : List (Option ℚ)) : Option ℚ :=
  let valid := (prices.filterMap id).filter (fun v => v ≠ 0)
  if valid.length < 2 then none
  else
    let returns := (prices.zip prices.tail).filterMap (fun p =>
      match p.1, p.2 with
      | some a, some b => if a ≠ 0 ∧ b ≠ 0 then some ((b - a) / a) else none
      | _, _ => none)
    some (pop_variance returns * 10000)

/-! ### services.py enrich_token_data — decimals handling -/

/-- A fetched JSON scalar for the `decimals` metadata field: either a
Python int or a non-integer number. -/
inductive PyNum where
  | int (z : ℤ)
  | float (q : ℚ)
  deriving Repr, DecidableEq

/-- Python truthiness of a number (0 and 0.0 are falsy). -/
def PyNum.truthy : PyNum → Bool
  | .int z => z ≠ 0
  | .float q => q ≠ 0

/-- The decimals actually used by enrich_token_data:
`decimals = metadata.get('decimals') or 18` followed by
`if not isinstance(decimals, int) or decimals < 0: decimals = 18`. -/
def decimals_used (fetched : Option PyNum) : ℤ :=
  let d : PyNum :=
    match fetched with
    | none => .int 18
    | some v => if v.truthy then v else .int 18
  match d with
  | .int z => if z < 0 then 18 else z
  | .float _ => 18

/-- The human-readable balance `balance_int / (10 ** decimals)` computed
by enrich_token_data (`decimals_used` is always nonnegative, so the
`toNat` cast is exact). -/
def balance_human (balance_int : ℤ) (fetched : Option PyNum) : ℚ :=
  (balance_int : ℚ) / (10 : ℚ) ^ (decimals_used fetched).toNat

/-- Modelled from the spec sentence for C8 (not from the source): use
the fetched decimals, except that decimals is 18 exactly when the
fetched value is missing, non-integer, or negative. -/
def decimals_claim (fetched : Option PyNum) : ℤ :=
  match fetched with
  | some (.int z) => if z < 0 then 18 else z
  | some (.float _) => 18
  | none => 18

/-! ### services.py calculate_portfolio_concentration -/

/-- services.py calculate_portfolio_concentration.  Sorting uses the
stable descending order of Python `sorted(..., reverse=True)`. -/
def calculate_portfolio_concentration (enriched_tokens : List EnrichedToken) : Concentration :=
  if enriched_tokens = [] then
    { herfindahl_index := 0, top_1_concentration := 0, top_3_concentration := 0
      top_5_concentration := 0, diversification_score := 0, num_tokens := 0
      total_value_usd := 0 }
  else
    let total_value := (enriched_tokens.map (·.value_usd)).sum
    if total_value = 0 then
      { herfindahl_index := 0, top_1_concentration := 0, top_3_concentration := 0
        top_5_concentration := 0, diversification_score := 0
        num_tokens := enriched_tokens.length, total_value_usd := 0 }
    else
      let sorted_tokens :=
        List.insertionSort (fun a b : EnrichedToken => b.value_usd ≤ a.value_usd) enriched_tokens
      let herfindahl := (enriched_tokens.map (fun t => (t.value_usd / total_value) ^ 2)).sum
      let top_1 :=
        match sorted_tokens with
        | t :: _ => t.value_usd / total_value
        | [] => 0
      let top_3 :=
        if 3 ≤ sorted_tokens.length then ((sorted_tokens.take 3).map (·.value_usd)).sum / total_value
        else top_1
      let top_5 :=
        if 5 ≤ sorted_tokens.length then ((sorted_tokens.take 5).map (·.value_usd)).sum / total_value
        else top_3
      { herfindahl_index := herfindahl
        top_1_concentration := top_1
        top_3_concentration := top_3
        top_5_concentration := top_5
        diversification_score := (1 - herfindahl) * 100
        num_tokens := enriched_tokens.length
        total_value_usd := total_value }

/-! ### services.py extract_repayment_timelines -/

/-- One RepaymentTimeline record. -/
structure RepaymentTimeline where
  protocol : String
  borrow_tx : String
  borrow_time : ℤ
  repay_tx : Option String
  repay_time : Option ℤ
  days_to_repay : Option ℤ
  status : String
  deriving Repr, DecidableEq

/-- The inner scan of extract_repayment_timelines: the first repay event
(in transaction-list order) with timestamp strictly after the borrow. -/
def find_matching_repay (borrow_time : ℤ) : List PTx → Option PTx
  | [] => none
  | r :: rs => if borrow_time < r.timestamp then some r else find_matching_repay borrow_time rs

/-- Aggregate result of extract_repayment_timelines. -/
structure TimelinesResult where
  timelines : List RepaymentTimeline
  total_borrowings : ℕ
  repaid_count : ℕ
  outstanding_count : ℕ
  average_repayment_days : ℚ
  fastest_repayment_days : Option ℤ
  slowest_repayment_days : Option ℤ
  deriving Repr, DecidableEq

/-- The timeline built for one borrow transaction of one protocol. -/
def timeline_for_borrow (protocol_name : String) (repays : List PTx) (b : PTx) :
    RepaymentTimeline :=
  match find_matching_repay b.timestamp repays with
  | some r =>
    { protocol := protocol_name
      borrow_tx := b.tx_hash
      borrow_time := b.timestamp
      repay_tx := some r.tx_hash
      repay_time := some r.timestamp
      days_to_repay := some (Int.fdiv (r.timestamp - b.timestamp) 86400)
      status := "repaid" }
  | none =>
    { protocol := protocol_name
      borrow_tx := b.tx_hash
      borrow_time := b.timestamp
      repay_tx := none
      repay_time := none
      days_to_repay := none
      status := "outstanding" }

/-- services.py extract_repayment_timelines. -/
def extract_repayment_timelines (protocol_analysis : ProtocolAnalysis) : TimelinesResult :=
  let repayment_timelines := protocol_analysis.protocols.flatMap (fun entry =>
    let proto_data := entry.2
    let borrows := proto_data.transactions.filter (fun tx => tx.event_type == "borrow")
    let repays := proto_data.transactions.filter (fun tx => tx.event_type == "repay")
    borrows.map (timeline_for_borrow proto_data.protocol_name repays))
  let repaid_timelines := repayment_timelines.filter (fun t => t.status == "repaid")
  let repaid_days : List ℤ := repaid_timelines.filterMap (·.days_to_repay)
  { timelines := repayment_timelines
    total_borrowings := repayment_timelines.length
    repaid_count := repaid_timelines.length
    outstanding_count := (repayment_timelines.filter (fun t => t.status == "outstanding")).length
    average_repayment_days :=
      if repaid_timelines = [] then 0 else (repaid_days.map (fun d => (d : ℚ))).sum / repaid_days.length
    fastest_repayment_days := repaid_days.min?
    slowest_repayment_days := repaid_days.max? }

end Reputa.Services

namespace Reputa.Services

open Reputa

/-! ### services.py calculate_credit_score (300–850 assessment variant)

Input: the nested assessment dict produced by
complete_credit_assessment; only the fields this scorer reads are
modelled.  The `key_strengths` / `key_risks` diagnostic string lists of
the output are omitted. -/

structure Punctuality where
  punctuality_score : ℚ
  deriving Repr, DecidableEq

structure ProtocolPerformance where
  total_protocols_used : ℕ
  average_repayment_rate : ℚ
  deriving Repr, DecidableEq

structure EmergencyRepayments where
  has_emergency_behavior : Bool
  emergency_repayment_count : ℕ
  deriving Repr, DecidableEq

structure PastPerformance where
  repayment_timelines : TimelinesResult
  punctuality : Punctuality
  protocol_performance : ProtocolPerformance
  emergency_repayments : EmergencyRepayments
  deriving Repr, DecidableEq

structure BalanceSheet where
  leverage_ratio : ℚ
  liquidity_ratio : ℚ
  stress_resilience : String
  deriving Repr, DecidableEq

structure UseOfProceeds where
  loop_ratio : ℚ
  has_looping_behavior : Bool
  total_tracked_borrows : ℕ
  average_transfers_after_borrow : ℚ
  deriving Repr, DecidableEq

structure CashFlows where
  debt_service_coverage_ratio : ℚ
  stress_resilience : String
  deriving Repr, DecidableEq

/-- The assessment record (keys 1_past_credit_performance,
2_balance_sheet, 3_use_of_proceeds, 4_cash_flows, and the
tokens.concentration.herfindahl_index lookup, flattened one level where
the source reads a single field from a nested sub-dict). -/
structure Assessment where
  past_credit_performance : PastPerformance
  balance_sheet : BalanceSheet
  use_of_proceeds : UseOfProceeds
  cash_flows : CashFlows
  herfindahl_index : ℚ
  deriving Repr, DecidableEq

structure AssessmentScore where
  credit_score : ℤ
  grade : String
  risk_level : String
  payment_history : ℚ
  leverage_solvency : ℚ
  use_of_proceeds_points : ℚ
  cash_flow : ℚ
  penalties : ℚ
  deriving Repr, DecidableEq

/-- services.py calculate_credit_score (the 300-based master scorer). -/
def calculate_credit_score (assessment : Assessment) : AssessmentScore :=
  let perf := assessment.past_credit_performance
  let balance := assessment.balance_sheet
  let proceeds := assessment.use_of_proceeds
  let cash := assessment.cash_flows
  let base_score : ℚ := 300
  let max_score : ℚ := 850
  -- Component 1: payment history (cap 192.5)
  let punctuality := perf.punctuality.punctuality_score
  let timelines := perf.repayment_timelines
  let payment_score : ℚ :=
    punctuality
    + (if 0 < timelines.total_borrowings then
        ((timelines.repaid_count : ℚ) / (timelines.total_borrowings : ℚ)) * 50
      else 0)
    + (if 0 < perf.protocol_performance.total_protocols_used then
        perf.protocol_performance.average_repayment_rate * 42.5
      else 0)
  let payment_score := min payment_score 192.5
  -- Component 2: leverage & solvency (cap 137.5)
  let leverage_ratio := balance.leverage_ratio
  let leverage_score : ℚ :=
    (if leverage_ratio = 0 then 60
     else if leverage_ratio < 0.25 then 50
     else if leverage_ratio < 0.5 then 35
     else if leverage_ratio < 0.75 then 20
     else 5)
    + (if 0.5 < balance.liquidity_ratio then 40
       else if 0.3 < balance.liquidity_ratio then 30
       else if 0.15 < balance.liquidity_ratio then 20
       else 10)
    + (if balance.stress_resilience = "high" then 37.5
       else if balance.stress_resilience = "moderate" then 20
       else if balance.stress_resilience = "low" then 5
       else 0)
  -- Component 3: use of proceeds (cap 110)
  let loop_ratio := proceeds.loop_ratio
  let proceeds_score : ℚ :=
    (if loop_ratio = 0 then 60
     else if loop_ratio < 0.3 then 45
     else if loop_ratio < 0.6 then 25
     else 5)
    + (if 0 < proceeds.total_tracked_borrows then
        (if 1 ≤ proceeds.average_transfers_after_borrow ∧
            proceeds.average_transfers_after_borrow ≤ 3 then 50
         else if proceeds.average_transfers_after_borrow < 1 then 35
         else 20)
      else 25)
  -- Component 4: cash flow & debt service (cap 110)
  let dscr := cash.debt_service_coverage_ratio
  let cashflow_score : ℚ :=
    (if 2.5 < dscr then 70
     else if 1.5 < dscr then 55
     else if 1 < dscr then 35
     else if 0.5 < dscr then 15
     else 5)
    + (if cash.stress_resilience = "high" then 40
       else if cash.stress_resilience = "moderate" then 25
       else if cash.stress_resilience = "low" then 10
       else 0)
  -- Penalties
  let penalties : ℚ :=
    (if perf.emergency_repayments.has_emergency_behavior then
      min ((perf.emergency_repayments.emergency_repayment_count : ℚ) * 10) 40
    else 0)
    + (if 0 < timelines.outstanding_count then
        min ((timelines.outstanding_count : ℚ) * 15) 50
      else 0)
    + (if proceeds.has_looping_behavior ∧ 0.5 < loop_ratio then 30 else 0)
    + (if 0.8 < assessment.herfindahl_index then 25 else 0)
  let raw_score :=
    base_score + payment_score + leverage_score + proceeds_score + cashflow_score - penalties
  let final_score : ℤ := max 300 (min (pyInt raw_score) (pyInt max_score))
  let grade_risk : String × String :=
    if 800 ≤ final_score then ("AAA", "Very Low")
    else if 750 ≤ final_score then ("AA", "Low")
    else if 700 ≤ final_score then ("A", "Low-Medium")
    else if 650 ≤ final_score then ("BBB", "Medium")
    else if 600 ≤ final_score then ("BB", "Medium-High")
    else if 550 ≤ final_score then ("B", "High")
    else if 500 ≤ final_score then ("CCC", "Very High")
    else ("D", "Default Risk")
  { credit_score := final_score
    grade := grade_risk.1
    risk_level := grade_risk.2
    payment_history := payment_score
    leverage_solvency := leverage_score
    use_of_proceeds_points := proceeds_score
    cash_flow := cashflow_score
    penalties := penalties }

end Reputa.Services

namespace Reputa.Scoring

open Reputa

/-! ### scoring.py analyze_transfers -/

structure TransferAnalysis where
  age_days : ℤ
  tx_count : ℕ
  eth_in : ℚ
  eth_out : ℚ
  active_months : ℕ
  avg_tx_per_month : ℚ
  dormant_periods : ℕ
  latest_activity : Option ℤ
  deriving Repr, DecidableEq

/-- The dormancy loop: number of adjacent gaps above 90 days in the
ascending-sorted timestamp list. -/
def count_long_gaps : List ℤ → ℕ
  | a :: b :: rest => (if 90 < Int.fdiv (b - a) 86400 then 1 else 0) + count_long_gaps (b :: rest)
  | _ => 0

/-- scoring.py analyze_transfers.  `now` is the value of
`datetime.utcnow()` read inside the function; both early-return dicts of
the source lack the `dormant_periods` / `latest_activity` keys, which
the scorer reads back with defaults 0 / never, so those paths set 0 /
`none` here. -/
def analyze_transfers (now : ℤ) (transfers : TransferBundle) : TransferAnalysis :=
  let incoming := transfers.incoming
  let outgoing := transfers.outgoing
  let all_tx := incoming ++ outgoing
  if all_tx.isEmpty then
    { age_days := 0, tx_count := 0, eth_in := 0, eth_out := 0, active_months := 0
      avg_tx_per_month := 0, dormant_periods := 0, latest_activity := none }
  else
    let timestamps := all_tx.filterMap (·.block_timestamp)
    if timestamps.isEmpty then
      { age_days := 0, tx_count := all_tx.length, eth_in := 0, eth_out := 0, active_months := 0
        avg_tx_per_month := 0, dormant_periods := 0, latest_activity := none }
    else
      let earliest := (timestamps.min?).getD 0
      let latest := (timestamps.max?).getD 0
      let age_days := Int.fdiv (now - earliest) 86400
      let active_months := ((timestamps.map monthKey).dedup).length
      let eth_in :=
        ((incoming.filter (fun t => t.asset == some "ETH")).map (fun t => (t.value).getD 0)).sum
      let eth_out :=
        ((outgoing.filter (fun t => t.asset == some "ETH")).map (fun t => (t.value).getD 0)).sum
      let avg_tx_per_month := (all_tx.length : ℚ) / max ((age_days : ℚ) / 30) 1
      let dormant_periods := count_long_gaps (List.insertionSort (· ≤ ·) timestamps)
      { age_days := age_days, tx_count := all_tx.length, eth_in := eth_in, eth_out := eth_out
        active_months := active_months, avg_tx_per_month := avg_tx_per_month
        dormant_periods := dormant_periods, latest_activity := some latest }

/-! ### scoring.py helper analytics -/

/-- scoring.py calculate_token_value on enriched tokens (the scorer
always passes the enriched list; on an empty list the source's raw-dict
fallback loop also returns 0). -/
def calculate_token_value (tokens : List EnrichedToken) : ℚ :=
  (tokens.map (·.value_usd)).sum

/-- services.py estimate_nft_values: a dict keyed by
`f"{contract}_{tokenId}"`, so NFTs sharing contract and token id
collapse to one entry (last write wins). -/
def estimate_nft_values (nfts : List NFT) : List (String × ℚ) :=
  nfts.foldl (fun values nft =>
    let floor0 := (nft.floor_price).getD 0
    let contract_addr := nft.contract_address
    let floor :=
      if BLUE_CHIP_NFTS.contains contract_addr.toLower then max floor0 0.5 else floor0
    assocSet values (contract_addr ++ "_" ++ nft.token_id) floor) []

structure NftValue where
  total_value : ℚ
  blue_chip_count : ℕ
  deriving Repr, DecidableEq

/-- scoring.py calculate_nft_value. -/
def calculate_nft_value (nfts : List NFT) : NftValue :=
  let values := estimate_nft_values nfts
  { total_value := (values.map (·.2)).sum
    blue_chip_count :=
      (nfts.filter (fun nft => BLUE_CHIP_NFTS.contains nft.contract_address.toLower)).length }

structure NftQuality where
  verified_count : ℕ
  not_requested_count : ℕ
  other_count : ℕ
  verification_rate : ℚ
  deriving Repr, DecidableEq

/-- The `nft.get("classification", {}).get("safelist", "unknown")` read. -/
def safelist_of (nft : NFT) : String :=
  match nft.classification with
  | some c => c.safelist
  | none => "unknown"

/-- scoring.py analyze_nft_quality. -/
def analyze_nft_quality (nfts : NFTGroups) : NftQuality :=
  let safelists := nfts.legit_nfts.map safelist_of
  let verified_count := (safelists.filter (· == "verified")).length
  let not_requested_count := (safelists.filter (· == "not_requested")).length
  let other_count :=
    (safelists.filter (fun s => ¬(s == "verified") ∧ ¬(s == "not_requested"))).length
  { verified_count := verified_count
    not_requested_count := not_requested_count
    other_count := other_count
    verification_rate := (verified_count : ℚ) / ((max nfts.counts.legit 1 : ℕ) : ℚ) }

structure VolatilityRisk where
  average_volatility : ℚ
  high_volatility_exposure : ℚ
  risk_score : ℚ
  deriving Repr, DecidableEq

/-- scoring.py calculate_volatility_risk. -/
def calculate_volatility_risk (enriched_tokens : List EnrichedToken) : VolatilityRisk :=
  if enriched_tokens.isEmpty then
    { average_volatility := 0, high_volatility_exposure := 0, risk_score := 0 }
  else
    let volatilities := enriched_tokens.filterMap (·.volatility_30d)
    if volatilities.isEmpty then
      { average_volatility := 0, high_volatility_exposure := 0, risk_score := 50 }
    else
      let avg_volatility := volatilities.sum / volatilities.length
      let total_value := (enriched_tokens.map (·.value_usd)).sum
      let high_vol_value :=
        ((enriched_tokens.filter (fun t =>
            match t.volatility_30d with
            | some v => decide (v ≠ 0) && decide (50 < v)
            | none => false)).map (·.value_usd)).sum
      let high_vol_exposure := if 0 < total_value then high_vol_value / total_value else 0
      { average_volatility := avg_volatility
        high_volatility_exposure := high_vol_exposure
        risk_score := min (avg_volatility + high_vol_exposure * 50) 100 }

structure StablecoinScore where
  stablecoin_ratio : ℚ
  stablecoin_usd : ℚ
  liquidity_score : ℚ
  deriving Repr, DecidableEq

/-- scoring.py calculate_stablecoin_score (the zero-portfolio early
return omits `stablecoin_usd`, which is never read; it is 0 here). -/
def calculate_stablecoin_score (stablecoin_data : StablecoinData) (total_portfolio : ℚ) :
    StablecoinScore :=
  let stablecoin_usd := stablecoin_data.total_stablecoin_usd
  if total_portfolio = 0 then
    { stablecoin_ratio := 0, stablecoin_usd := 0, liquidity_score := 0 }
  else
    let stablecoin_ratio := stablecoin_usd / total_portfolio
    let liquidity_score : ℚ :=
      if 0.2 ≤ stablecoin_ratio ∧ stablecoin_ratio ≤ 0.5 then 100
      else if 0.5 < stablecoin_ratio then max (100 - (stablecoin_ratio - 0.5) * 100) 50
      else stablecoin_ratio * 500
    { stablecoin_ratio := stablecoin_ratio
      stablecoin_usd := stablecoin_usd
      liquidity_score := min liquidity_score 100 }

/-! ### scoring.py calculate_credit_assessment -/

structure LendingStats where
  borrows : ℕ
  repays : ℕ
  liquidations : ℕ
  repayment_ratio : ℚ
  deriving Repr, DecidableEq

structure CreditAssessment where
  credit_score : ℤ
  total_borrowing_events : ℕ
  total_repayment_events : ℕ
  total_liquidations : ℕ
  repayment_ratio : ℚ
  lending_protocols_used : List (String × LendingStats)
  has_default_history : Bool
  creditworthiness : String
  has_borrowing_activity : Bool
  deriving Repr, DecidableEq

/-- scoring.py calculate_credit_assessment. -/
def calculate_credit_assessment (protocol_analysis : ProtocolAnalysis) : CreditAssessment :=
  let total_borrows := protocol_analysis.summary.total_borrow_events
  let total_repays := protocol_analysis.summary.total_repay_events
  let total_liquidations := protocol_analysis.summary.total_liquidation_events
  let credit_score_raw : ℤ :=
    if total_borrows = 0 then 50
    else
      let ratio : ℚ := (total_repays : ℚ) / (total_borrows : ℚ)
      let s : ℤ :=
        if 1 ≤ ratio then 100
        else if 0.9 ≤ ratio then 95
        else if 0.8 ≤ ratio then 85
        else if 0.7 ≤ ratio then 75
        else if 0.6 ≤ ratio then 65
        else if 0.5 ≤ ratio then 55
        else if 0.4 ≤ ratio then 45
        else 30
      if 0 < total_liquidations then s - (total_liquidations : ℤ) * 20 else s
  let credit_score := max 0 (min 100 credit_score_raw)
  let lending_protocols_used :=
    protocol_analysis.protocols.foldl (fun acc entry =>
      let data := entry.2
      if 0 < data.borrow_count ∨ 0 < data.repay_count ∨ 0 < data.liquidate_count then
        assocSet acc data.protocol_name
          { borrows := data.borrow_count
            repays := data.repay_count
            liquidations := data.liquidate_count
            repayment_ratio := (data.repay_count : ℚ) / ((max data.borrow_count 1 : ℕ) : ℚ) }
      else acc) []
  let creditworthiness :=
    if 90 ≤ credit_score then "EXCELLENT"
    else if 75 ≤ credit_score then "GOOD"
    else if 60 ≤ credit_score then "FAIR"
    else if 40 ≤ credit_score then "POOR"
    else "VERY POOR"
  { credit_score := credit_score
    total_borrowing_events := total_borrows
    total_repayment_events := total_repays
    total_liquidations := total_liquidations
    repayment_ratio := protocol_analysis.risk_indicators.repayment_ratio
    lending_protocols_used := lending_protocols_used
    has_default_history := decide (0 < total_liquidations)
    creditworthiness := creditworthiness
    has_borrowing_activity := decide (0 < total_borrows) }

/-! ### scoring.py calculate_credit_score — weighted components -/

/-- Payment-history component (cap 298). -/
def payment_score (ca : CreditAssessment) (defi : DefiActivity) (ta : TransferAnalysis) : ℚ :=
  let s : ℚ :=
    (if ca.has_borrowing_activity then
      ((ca.credit_score : ℚ) / 100) * 150
      + (if ca.creditworthiness = "EXCELLENT" then 30
         else if ca.creditworthiness = "GOOD" then 20 else 0)
      + (if ca.has_default_history then -50 else 0)
    else 50)
    + (if defi.aave then 20 else 0)
    + (if defi.compound then 15 else 0)
    + (if defi.ethena then 15 else 0)
    + (if defi.morpho then 10 else 0)
    + (if 3 ≤ defi.total_protocols then 20 else 0)
    + (if 12 < ta.active_months then 30 else if 6 < ta.active_months then 15 else 0)
    + (if 5 < ta.avg_tx_per_month then 20 else if 2 < ta.avg_tx_per_month then 10 else 0)
    + (if ta.dormant_periods = 0 then 15 else 0)
  min s 298

/-- Amounts-owed component (cap 255). -/
def amounts_score (ss : StablecoinScore) (total_assets eth_balance : ℚ) : ℚ :=
  min (ss.liquidity_score * 1
       + min (total_assets * 0.01) 100
       + (if 10 < eth_balance then 55
          else if 1 < eth_balance then 35
          else if 0.1 < eth_balance then 15 else 0)) 255

/-- Length-of-history component (cap 128). -/
def history_score (ta : TransferAnalysis) : ℚ :=
  min (min ((ta.age_days : ℚ) / 365 * 30) 80 + min ((ta.tx_count : ℚ) * 0.5) 48) 128

/-- New-credit component (cap 85). -/
def new_credit_score (defi : DefiActivity) (ta : TransferAnalysis) : ℚ :=
  min ((if 0 < defi.total_protocols then min ((defi.total_protocols : ℚ) * 20) 60 else 0)
       + (if ta.tx_count < 1000 then 25 else 0)) 85

/-- Credit-mix component (cap 85). -/
def mix_score (conc : Concentration) (defi : DefiActivity) : ℚ :=
  min (conc.diversification_score * 0.4 + min ((defi.total_protocols : ℚ) * 10) 45) 85

/-- Reputation bonuses (cap 200). -/
def reputation_bonus (counts : Counts) (nftq : NftQuality) (nftv : NftValue)
    (defi : DefiActivity) (ca : CreditAssessment) : ℚ :=
  min (min ((counts.poaps : ℚ) * 3) 40
       + (if 0 < counts.ens then 25 else 0)
       + min ((nftq.verified_count : ℚ) * 5) 60
       + min ((nftv.blue_chip_count : ℚ) * 15) 50
       + (if 0 < defi.staking_events then min ((defi.staking_events : ℚ) * 5) 30 else 0)
       + (if ca.has_borrowing_activity ∧ ¬ca.has_default_history then 40 else 0)) 200

/-- The spam ratio `counts.spam / max(counts.total, 1)`. -/
def spam_ratio (counts : Counts) : ℚ :=
  (counts.spam : ℚ) / ((max counts.total 1 : ℕ) : ℚ)

/-- The spam-NFT term of the risk penalty. -/
def spam_penalty (counts : Counts) : ℚ :=
  if 0.5 < spam_ratio counts then 80 else if 0.2 < spam_ratio counts then 40 else 0

/-- Risk penalties (uncapped before the final clamp). -/
def risk_penalty (mixer : MixerCheck) (conc : Concentration) (vol : VolatilityRisk)
    (counts : Counts) (ta : TransferAnalysis) (nftq : NftQuality) (ca : CreditAssessment) : ℚ :=
  (if mixer.has_mixer_interaction then 200 else 0)
  + (if 0.8 < conc.top_1_concentration then 100
     else if 0.5 < conc.top_1_concentration then 50 else 0)
  + (if 70 < vol.risk_score then 80 else if 50 < vol.risk_score then 40 else 0)
  + spam_penalty counts
  + (if 0 < ta.eth_in then
      (let imbalance := ta.eth_out / ta.eth_in
       if 10 < imbalance then 150 else if 5 < imbalance then 70 else 0)
    else 0)
  + (if nftq.verification_rate < 0.3 ∧ 5 < counts.legit then 30 else 0)
  + (if 0 < ca.total_liquidations then min ((ca.total_liquidations : ℚ) * 30) 100 else 0)

/-- Grade from the clamped (still rational) final score. -/
def grade_of (q : ℚ) : String :=
  if 800 ≤ q then "A+"
  else if 740 ≤ q then "A"
  else if 670 ≤ q then "B+"
  else if 580 ≤ q then "B"
  else if 500 ≤ q then "C"
  else if 400 ≤ q then "D"
  else "F"

/-- Rating text accompanying the grade. -/
def rating_of (q : ℚ) : String :=
  if 800 ≤ q then "Excellent"
  else if 740 ≤ q then "Very Good"
  else if 670 ≤ q then "Good"
  else if 580 ≤ q then "Fair"
  else if 500 ≤ q then "Poor"
  else if 400 ≤ q then "Very Poor"
  else "Bad"

/-- The ScoreResult record: the score, grade, breakdown (as the `int`
values the source reports), the echoed diagnostics the claims mention,
and the boolean risk flags. -/
structure ScoreResult where
  score : ℤ
  grade : String
  rating : String
  payment_history : ℤ
  amounts_owed : ℤ
  length_of_history : ℤ
  new_credit : ℤ
  credit_mix : ℤ
  reputation_bonus_points : ℤ
  risk_penalty_points : ℤ
  wallet_age_days : ℤ
  tx_count : ℕ
  active_months : ℕ
  credit_history_score : ℤ
  creditworthiness : String
  mixer_transactions : Bool
  high_spam_ratio : Bool
  drainer_pattern : Bool
  low_nft_verification : Bool
  high_concentration : Bool
  high_volatility : Bool
  dormant_flag : Bool
  has_liquidations : Bool
  poor_repayment : Bool
  deriving Repr, DecidableEq

/-- scoring.py calculate_credit_score (the FICO-style 0–850 scorer).
`now` is the UTC clock value read by the embedded analyze_transfers. -/
def calculate_credit_score (now : ℤ) (aggregated : Aggregated) : ScoreResult :=
  let nfts := aggregated.nfts
  let enriched_tokens := aggregated.tokens.holdings
  let credit_assessment := calculate_credit_assessment aggregated.protocol_analysis
  let concentration := aggregated.tokens.concentration
  let transfer_analysis := analyze_transfers now aggregated.transfers
  let defi_activity := aggregated.defi_analysis.protocol_interactions
  let mixer_check := aggregated.defi_analysis.mixer_check
  let nft_quality := analyze_nft_quality nfts
  let stablecoin_data := aggregated.defi_analysis.stablecoins
  let volatility_risk := calculate_volatility_risk enriched_tokens
  let eth_balance := aggregated.eth_balance
  let token_value := calculate_token_value enriched_tokens
  let nft_data := calculate_nft_value nfts.legit_nfts
  let eth_price : ℚ := 2800
  let total_assets := token_value + nft_data.total_value * eth_price + eth_balance * eth_price
  let stablecoin_score := calculate_stablecoin_score stablecoin_data total_assets
  let payment := payment_score credit_assessment defi_activity transfer_analysis
  let amounts := amounts_score stablecoin_score total_assets eth_balance
  let history := history_score transfer_analysis
  let new_credit := new_credit_score defi_activity transfer_analysis
  let mix := mix_score concentration defi_activity
  let reputation := reputation_bonus nfts.counts nft_quality nft_data defi_activity
    credit_assessment
  let penalty := risk_penalty mixer_check concentration volatility_risk nfts.counts
    transfer_analysis nft_quality credit_assessment
  let base_score := payment + amounts + history + new_credit + mix
  let final_score := max 0 (min (base_score + reputation - penalty) 850)
  { score := pyInt final_score
    grade := grade_of final_score
    rating := rating_of final_score
    payment_history := pyInt payment
    amounts_owed := pyInt amounts
    length_of_history := pyInt history
    new_credit := pyInt new_credit
    credit_mix := pyInt mix
    reputation_bonus_points := pyInt reputation
    risk_penalty_points := pyInt (-penalty)
    wallet_age_days := transfer_analysis.age_days
    tx_count := transfer_analysis.tx_count
    active_months := transfer_analysis.active_months
    credit_history_score := credit_assessment.credit_score
    creditworthiness := credit_assessment.creditworthiness
    mixer_transactions := mixer_check.has_mixer_interaction
    high_spam_ratio := decide (0.2 < spam_ratio nfts.counts)
    drainer_pattern := decide (5 < transfer_analysis.eth_out / max transfer_analysis.eth_in 0.001)
    low_nft_verification := decide (nft_quality.verification_rate < 0.3)
    high_concentration := decide (0.5 < concentration.top_1_concentration)
    high_volatility := decide (50 < volatility_risk.risk_score)
    dormant_flag := decide (2 < transfer_analysis.dormant_periods)
    has_liquidations := decide (0 < credit_assessment.total_liquidations)
    poor_repayment :=
      credit_assessment.has_borrowing_activity
        && decide (credit_assessment.repayment_ratio < 0.5) }

/-- Flip only the `has_mixer_interaction` flag of a profile. -/
def set_mixer (b : Bool) (aggregated : Aggregated) : Aggregated :=
  { aggregated with
    defi_analysis :=
      { aggregated.defi_analysis with
        mixer_check := { aggregated.defi_analysis.mixer_check with has_mixer_interaction := b } } }

end Reputa.Scoring

namespace Reputa

open Reputa

/-! ### Spec-side definitions and concrete inputs used by the theorems -/

/-- Modelled from the claim for C10: the creditworthiness tier
determined by a (clamped) 0–100 credit score. -/
def tier_of (s : ℤ) : String :=
  if 90 ≤ s then "EXCELLENT"
  else if 75 ≤ s then "GOOD"
  else if 60 ≤ s then "FAIR"
  else if 40 ≤ s then "POOR"
  else "VERY POOR"

/-- Modelled from the claim for C5: the timeline a borrow event should
receive — the first repay event of the protocol whose timestamp is
strictly after the borrow's, or an outstanding record when none exists. -/
def timeline_claim (protocol_name : String) (repays : List PTx) (b : PTx) :
    Services.RepaymentTimeline :=
  match repays.find? (fun r => b.timestamp < r.timestamp) with
  | some r =>
    { protocol := protocol_name
      borrow_tx := b.tx_hash
      borrow_time := b.timestamp
      repay_tx := some r.tx_hash
      repay_time := some r.timestamp
      days_to_repay := some (Int.fdiv (r.timestamp - b.timestamp) 86400)
      status := "repaid" }
  | none =>
    { protocol := protocol_name
      borrow_tx := b.tx_hash
      borrow_time := b.timestamp
      repay_tx := none
      repay_time := none
      days_to_repay := none
      status := "outstanding" }

def zero_counts : Counts :=
  { total := 0, poaps := 0, legit := 0, spam := 0, ens := 0 }

def zero_concentration : Concentration :=
  { herfindahl_index := 0, top_1_concentration := 0, top_3_concentration := 0
    top_5_concentration := 0, diversification_score := 0, num_tokens := 0
    total_value_usd := 0 }

def no_defi : DefiActivity :=
  { aave := false, compound := false, uniswap := false, curve := false, ethena := false
    morpho := false, total_protocols := 0, staking_events := 0 }

def empty_summary : Summary :=
  { total_borrow_events := 0, total_repay_events := 0, total_liquidation_events := 0 }

def empty_protocol_analysis : ProtocolAnalysis :=
  { protocols := [], summary := empty_summary, risk_indicators := { repayment_ratio := 0 } }

/-- The empty wallet: zero transfers, zero tokens, zero NFTs, no lending
history, no DeFi flags, zero ETH. -/
def empty_profile : Aggregated :=
  { nfts := { poaps := [], legit_nfts := [], ens_domains := [], counts := zero_counts }
    tokens := { holdings := [], concentration := zero_concentration }
    transfers := { incoming := [], outgoing := [] }
    protocol_analysis := empty_protocol_analysis
    defi_analysis :=
      { protocol_interactions := no_defi
        mixer_check := { has_mixer_interaction := false, mixer_tx_count := 0 }
        stablecoins := { total_stablecoin_usd := 0 } }
    eth_balance := 0 }

/-- An otherwise-empty wallet whose lending summary shows 1 borrow,
0 repays and 5 liquidations (used to exhibit both clamp bounds). -/
def liquidated_profile : Aggregated :=
  { empty_profile with
    protocol_analysis :=
      { protocols := []
        summary := { total_borrow_events := 1, total_repay_events := 0
                     total_liquidation_events := 5 }
        risk_indicators := { repayment_ratio := 0 } } }

/-- An otherwise-empty wallet with a single incoming 1-ETH transfer at
epoch second 0. -/
def one_transfer_profile : Aggregated :=
  { empty_profile with
    transfers :=
      { incoming := [{ asset := some "ETH", value := some 1, block_timestamp := some 0 }]
        outgoing := [] } }

/-- A protocol analysis with two borrows followed by a single repay ten
days later, exhibiting repay-event reuse in the timeline matcher. -/
def two_borrows_one_repay : ProtocolAnalysis :=
  { protocols :=
      [ ("0xpool",
         { protocol_name := "Aave"
           borrow_count := 2
           repay_count := 1
           liquidate_count := 0
           transactions :=
             [ { event_type := "borrow", timestamp := 100, tx_hash := "b1" }
             , { event_type := "borrow", timestamp := 200, tx_hash := "b2" }
             , { event_type := "repay", timestamp := 864000, tx_hash := "r1" } ] }) ]
    summary := { total_borrow_events := 2, total_repay_events := 1
                 total_liquidation_events := 0 }
    risk_indicators := { repayment_ratio := 1/2 } }

/-- A fetched 30-day price series with a zero price wedged between valid
prices: [1, 2, 0, 8]. -/
def gapped_prices : List (Option ℚ) := [some 1, some 2, some 0, some 8]

end Reputa

namespace Reputa.Scoring

open Reputa

/-- The pre-clamp final score (`base_score + reputation_bonus -
risk_penalty`) of scoring.py calculate_credit_score, as a function of
the profile. -/
def pre_clamp_score (now : ℤ) (aggregated : Aggregated) : ℚ :=
  let nfts := aggregated.nfts
  let enriched_tokens := aggregated.tokens.holdings
  let credit_assessment := calculate_credit_assessment aggregated.protocol_analysis
  let concentration := aggregated.tokens.concentration
  let transfer_analysis := analyze_transfers now aggregated.transfers
  let defi_activity := aggregated.defi_analysis.protocol_interactions
  let mixer_check := aggregated.defi_analysis.mixer_check
  let nft_quality := analyze_nft_quality nfts
  let stablecoin_data := aggregated.defi_analysis.stablecoins
  let volatility_risk := calculate_volatility_risk enriched_tokens
  let eth_balance := aggregated.eth_balance
  let token_value := calculate_token_value enriched_tokens
  let nft_data := calculate_nft_value nfts.legit_nfts
  let eth_price : ℚ := 2800
  let total_assets := token_value + nft_data.total_value * eth_price + eth_balance * eth_price
  let stablecoin_score := calculate_stablecoin_score stablecoin_data total_assets
  payment_score credit_assessment defi_activity transfer_analysis
    + amounts_score stablecoin_score total_assets eth_balance
    + history_score transfer_analysis
    + new_credit_score defi_activity transfer_analysis
    + mix_score concentration defi_activity
    + reputation_bonus nfts.counts nft_quality nft_data defi_activity credit_assessment
    - risk_penalty mixer_check concentration volatility_risk nfts.counts transfer_analysis
        nft_quality credit_assessment

end Reputa.Scoring

namespace Reputa

open Reputa

/-! ### Helper lemmas -/

theorem pyInt_of_nonneg {q : ℚ} (h : 0 ≤ q) : pyInt q = ⌊q⌋ := if_pos h

theorem pyInt_nonneg {q : ℚ} (h : 0 ≤ q) : 0 ≤ pyInt q := by
  rw [pyInt_of_nonneg h]
  exact Int.le_floor.mpr (by exact_mod_cast h)

theorem pyInt_le_intCast {q : ℚ} {n : ℤ} (h0 : 0 ≤ q) (h : q ≤ (n : ℚ)) : pyInt q ≤ n := by
  rw [pyInt_of_nonneg h0]
  calc ⌊q⌋ ≤ ⌊(n : ℚ)⌋ := Int.floor_le_floor h
  _ = n := Int.floor_intCast n

theorem pyInt_mono {p q : ℚ} (h0 : 0 ≤ p) (h : p ≤ q) : pyInt p ≤ pyInt q := by
  rw [pyInt_of_nonneg h0, pyInt_of_nonneg (h0.trans h)]
  exact Int.floor_le_floor h

/-- The score field of the FICO-style scorer is the truncated clamp of
the pre-clamp score. -/
theorem score_eq_clamp (now : ℤ) (aggregated : Aggregated) :
    (Scoring.calculate_credit_score now aggregated).score
      = pyInt (max 0 (min (Scoring.pre_clamp_score now aggregated) 850)) := rfl

/-! ### Claim theorems -/

/-- C10: for every protocol-analysis input, calculate_credit_assessment
returns a credit_score in [0, 100], and the creditworthiness label is
exactly the tier determined by that clamped score (EXCELLENT ≥ 90,
GOOD ≥ 75, FAIR ≥ 60, POOR ≥ 40, else VERY POOR). -/
theorem c10_assessment_bounds (pa : ProtocolAnalysis) :
    0 ≤ (Scoring.calculate_credit_assessment pa).credit_score ∧
    (Scoring.calculate_credit_assessment pa).credit_score ≤ 100 ∧
    (Scoring.calculate_credit_assessment pa).creditworthiness
      = tier_of (Scoring.calculate_credit_assessment pa).credit_score := by
  refine ⟨le_max_left _ _, max_le (by norm_num) (min_le_left _ _), rfl⟩

/-- C1: the FICO-style scorer always returns a score in [0, 850], and the
300-based assessment scorer always returns a credit_score in [300, 850]. -/
theorem c1_score_bounds :
    (∀ (now : ℤ) (aggregated : Aggregated),
      0 ≤ (Scoring.calculate_credit_score now aggregated).score ∧
        (Scoring.calculate_credit_score now aggregated).score ≤ 850) ∧
    (∀ assessment : Services.Assessment,
      300 ≤ (Services.calculate_credit_score assessment).credit_score ∧
        (Services.calculate_credit_score assessment).credit_score ≤ 850) := by
  constructor
  · intro now aggregated
    rw [score_eq_clamp]
    constructor
    · exact pyInt_nonneg (le_max_left _ _)
    · refine pyInt_le_intCast (le_max_left _ _) ?_
      push_cast
      exact max_le (by norm_num) (min_le_right _ _)
  · intro assessment
    have h850 : pyInt (850 : ℚ) = 850 := by
      rw [pyInt_of_nonneg (by norm_num)]
      norm_num
    constructor
    · exact le_max_left _ _
    · exact max_le (by norm_num) ((min_le_right _ _).trans (le_of_eq h850))

end Reputa

namespace Reputa

/-- C2: the empty wallet (zero transfers, tokens, NFTs) scores without
error: age_days = 0, tx_count = 0, score 90, which lies in the minimum
grade tier "F" (below the lowest 400 threshold). -/
theorem c2_empty_wallet (now : ℤ) :
    (Scoring.calculate_credit_score now empty_profile).score = 90 ∧
    (Scoring.calculate_credit_score now empty_profile).grade = "F" ∧
    (Scoring.calculate_credit_score now empty_profile).wallet_age_days = 0 ∧
    (Scoring.calculate_credit_score now empty_profile).tx_count = 0 ∧
    (Scoring.calculate_credit_score now empty_profile).score < 400 := by
  norm_num [Scoring.calculate_credit_score, Scoring.analyze_transfers,
    Scoring.calculate_credit_assessment, Scoring.analyze_nft_quality,
    Scoring.calculate_volatility_risk, Scoring.calculate_token_value,
    Scoring.calculate_nft_value, Scoring.estimate_nft_values,
    Scoring.calculate_stablecoin_score, Scoring.payment_score, Scoring.amounts_score,
    Scoring.history_score, Scoring.new_credit_score, Scoring.mix_score,
    Scoring.reputation_bonus, Scoring.risk_penalty, Scoring.spam_penalty,
    Scoring.spam_ratio, Scoring.grade_of, Scoring.rating_of, pyInt,
    empty_profile, zero_counts, zero_concentration, no_defi, empty_summary,
    empty_protocol_analysis, min_def, max_def]

end Reputa

namespace Reputa

/-- The mixer term of the risk penalty is a flat additive 200. -/
theorem risk_penalty_mixer_split (b : Bool) (n : ℕ) (conc : Concentration)
    (vol : Scoring.VolatilityRisk) (counts : Counts) (ta : Scoring.TransferAnalysis)
    (nftq : Scoring.NftQuality) (ca : Scoring.CreditAssessment) :
    Scoring.risk_penalty ⟨b, n⟩ conc vol counts ta nftq ca
      = (if b then 200 else 0) + Scoring.risk_penalty ⟨false, n⟩ conc vol counts ta nftq ca := by
  cases b <;> simp [Scoring.risk_penalty] <;> ring

/-- Flipping the mixer flag on changes the pre-clamp score by exactly
the flat 200-point mixer penalty. -/
theorem pre_clamp_set_mixer (now : ℤ) (aggregated : Aggregated) :
    Scoring.pre_clamp_score now (Scoring.set_mixer true aggregated)
      = Scoring.pre_clamp_score now (Scoring.set_mixer false aggregated) - 200 := by
  simp only [Scoring.pre_clamp_score, Scoring.set_mixer]
  rw [risk_penalty_mixer_split true, risk_penalty_mixer_split false]
  simp only [if_true, Bool.false_eq_true, if_false, eq_self_iff_true]
  ring

/-- C3 (amended): a profile with mixer interaction never scores higher
than the otherwise-identical profile without it, and scores strictly
lower whenever the mixer-free score is strictly between the clamp
bounds 0 and 850 (at the bounds both scores can clamp to the same
value). -/
theorem c3_mixer_monotone (now : ℤ) (aggregated : Aggregated) :
    (Scoring.calculate_credit_score now (Scoring.set_mixer true aggregated)).score
      ≤ (Scoring.calculate_credit_score now (Scoring.set_mixer false aggregated)).score ∧
    (0 < (Scoring.calculate_credit_score now (Scoring.set_mixer false aggregated)).score →
      (Scoring.calculate_credit_score now (Scoring.set_mixer false aggregated)).score < 850 →
      (Scoring.calculate_credit_score now (Scoring.set_mixer true aggregated)).score
        < (Scoring.calculate_credit_score now (Scoring.set_mixer false aggregated)).score) := by
  set S := Scoring.pre_clamp_score now (Scoring.set_mixer false aggregated) with hS
  have ht : (Scoring.calculate_credit_score now (Scoring.set_mixer true aggregated)).score
      = pyInt (max 0 (min (S - 200) 850)) := by
    rw [score_eq_clamp, pre_clamp_set_mixer]
  have hf : (Scoring.calculate_credit_score now (Scoring.set_mixer false aggregated)).score
      = pyInt (max 0 (min S 850)) := score_eq_clamp now _
  constructor
  · rw [ht, hf]
    exact pyInt_mono (le_max_left _ _)
      (max_le_max le_rfl (min_le_min (by linarith) le_rfl))
  · intro h1 h2
    rw [hf] at h1 h2
    rw [ht, hf]
    have hq0 : (0 : ℚ) ≤ max 0 (min S 850) := le_max_left _ _
    rw [pyInt_of_nonneg hq0] at h1 h2
    have h1q : (1 : ℚ) ≤ max 0 (min S 850) := by
      have h1' : (1 : ℤ) ≤ ⌊max 0 (min S 850)⌋ := h1
      exact_mod_cast Int.le_floor.mp h1'
    have hS1 : (1 : ℚ) ≤ S := by
      rcases le_max_iff.mp h1q with h | h
      · norm_num at h
      · exact (le_min_iff.mp h).1
    have hS850 : S < 850 := by
      have hq : max 0 (min S 850) < 850 := by exact_mod_cast Int.floor_lt.mp h2
      have hmin : min S 850 < 850 := (max_lt_iff.mp hq).2
      by_contra hc
      push_neg at hc
      rw [min_eq_right hc] at hmin
      exact lt_irrefl _ hmin
    have hq_eq : max 0 (min S 850) = S := by
      rw [min_eq_left (le_of_lt hS850), max_eq_right (by linarith : (0 : ℚ) ≤ S)]
    rw [hq_eq]
    have hmin2 : min (S - 200) 850 = S - 200 := min_eq_left (by linarith)
    rw [hmin2]
    by_cases hc : S - 200 ≤ 0
    · rw [max_eq_left hc]
      have hz : pyInt 0 = 0 := by
        rw [pyInt_of_nonneg le_rfl]
        exact Int.floor_zero
      rw [hz, pyInt_of_nonneg (by linarith : (0 : ℚ) ≤ S)]
      have hfl1 : (1 : ℤ) ≤ ⌊S⌋ := Int.le_floor.mpr (by exact_mod_cast hS1)
      omega
    · push_neg at hc
      rw [max_eq_right (le_of_lt hc)]
      rw [pyInt_of_nonneg (le_of_lt hc), pyInt_of_nonneg (by linarith : (0 : ℚ) ≤ S)]
      have h200 : (200 : ℚ) = ((200 : ℤ) : ℚ) := by norm_num
      rw [h200, Int.floor_sub_int]
      omega

/-- Witness for C3 (amended): on the empty wallet the mixer flag makes
the score strictly smaller (90 drops to 0). -/
theorem c3_witness :
    (Scoring.calculate_credit_score 0 (Scoring.set_mixer true empty_profile)).score
      < (Scoring.calculate_credit_score 0 (Scoring.set_mixer false empty_profile)).score := by
  have h90 : (Scoring.calculate_credit_score 0 (Scoring.set_mixer false empty_profile)).score
      = 90 := by
    norm_num [Scoring.set_mixer, Scoring.calculate_credit_score, Scoring.analyze_transfers,
      Scoring.calculate_credit_assessment, Scoring.analyze_nft_quality,
      Scoring.calculate_volatility_risk, Scoring.calculate_token_value,
      Scoring.calculate_nft_value, Scoring.estimate_nft_values,
      Scoring.calculate_stablecoin_score, Scoring.payment_score, Scoring.amounts_score,
      Scoring.history_score, Scoring.new_credit_score, Scoring.mix_score,
      Scoring.reputation_bonus, Scoring.risk_penalty, Scoring.spam_penalty,
      Scoring.spam_ratio, pyInt, empty_profile, zero_counts, zero_concentration, no_defi,
      empty_summary, empty_protocol_analysis, min_def, max_def]
  refine (c3_mixer_monotone 0 empty_profile).2 ?_ ?_ <;> rw [h90] <;> norm_num

/-- Counterexample to C3 as stated: on an otherwise-empty wallet with
one borrow, no repays and five liquidations, both the mixer and the
mixer-free variants clamp to score 0, so the mixer profile does not
score strictly lower. -/
theorem c3_counterexample :
    (Scoring.calculate_credit_score 0 (Scoring.set_mixer true liquidated_profile)).score
      = (Scoring.calculate_credit_score 0 (Scoring.set_mixer false liquidated_profile)).score := by
  norm_num [Scoring.set_mixer, Scoring.calculate_credit_score, Scoring.analyze_transfers,
    Scoring.calculate_credit_assessment, Scoring.analyze_nft_quality,
    Scoring.calculate_volatility_risk, Scoring.calculate_token_value,
    Scoring.calculate_nft_value, Scoring.estimate_nft_values,
    Scoring.calculate_stablecoin_score, Scoring.payment_score, Scoring.amounts_score,
    Scoring.history_score, Scoring.new_credit_score, Scoring.mix_score,
    Scoring.reputation_bonus, Scoring.risk_penalty, Scoring.spam_penalty,
    Scoring.spam_ratio, pyInt, liquidated_profile, empty_profile, zero_counts,
    zero_concentration, no_defi, empty_summary, empty_protocol_analysis, min_def, max_def,
    show ("VERY POOR" : String) ≠ "EXCELLENT" from by decide,
    show ("VERY POOR" : String) ≠ "GOOD" from by decide]

end Reputa

namespace Reputa

/-- C4 (amended): the scorer is a pure function of the pair (clock
reading, aggregated input): identical clock and identical input give
identical ScoreResult.  (Determinism over calls fails: see the
counterexample — analyze_transfers reads the current UTC time.) -/
theorem c4_deterministic (n1 n2 : ℤ) (a1 a2 : Aggregated) (hn : n1 = n2) (ha : a1 = a2) :
    Scoring.calculate_credit_score n1 a1 = Scoring.calculate_credit_score n2 a2 := by
  subst hn
  subst ha
  rfl

/-- Witness for C4 (amended) at the empty profile and clock 0. -/
theorem c4_witness :
    Scoring.calculate_credit_score 0 empty_profile
      = Scoring.calculate_credit_score 0 empty_profile :=
  c4_deterministic 0 0 empty_profile empty_profile rfl rfl

/-- Counterexample to C4 as stated: with identical aggregated input (a
single 1-ETH incoming transfer at epoch 0), two calls at different UTC
times return different ScoreResults (score 90 at epoch 0, score 170 at
974 days later, because age_days changes). -/
theorem c4_counterexample :
    Scoring.calculate_credit_score 0 one_transfer_profile
      ≠ Scoring.calculate_credit_score (974 * 86400) one_transfer_profile := by
  have hta0 : Scoring.analyze_transfers 0
      { incoming := [{ asset := some "ETH", value := some 1, block_timestamp := some 0 }]
        outgoing := [] }
      = { age_days := 0, tx_count := 1, eth_in := 1, eth_out := 0, active_months := 1
          avg_tx_per_month := 1, dormant_periods := 0, latest_activity := some 0 } := by
    norm_num [Scoring.analyze_transfers, Scoring.count_long_gaps, List.filterMap_cons,
      List.min?, List.max?, List.isEmpty, List.filter_cons, List.filter_nil,
      List.insertionSort, List.orderedInsert, List.dedup_cons_of_not_mem,
      show monthKey 0 = (1970, 1) from by decide,
      show ((some "ETH" : Option String) == some "ETH") = true from by decide,
      show Int.fdiv 0 86400 = 0 from by decide]
  have hta974 : Scoring.analyze_transfers 84153600
      { incoming := [{ asset := some "ETH", value := some 1, block_timestamp := some 0 }]
        outgoing := [] }
      = { age_days := 974, tx_count := 1, eth_in := 1, eth_out := 0, active_months := 1
          avg_tx_per_month := 15/487, dormant_periods := 0, latest_activity := some 0 } := by
    norm_num [Scoring.analyze_transfers, Scoring.count_long_gaps, List.filterMap_cons,
      List.min?, List.max?, List.isEmpty, List.filter_cons, List.filter_nil,
      List.insertionSort, List.orderedInsert, List.dedup_cons_of_not_mem, min_def, max_def,
      show monthKey 0 = (1970, 1) from by decide,
      show ((some "ETH" : Option String) == some "ETH") = true from by decide,
      show Int.fdiv 84153600 86400 = 974 from by decide]
  intro h
  have hs := congrArg Scoring.ScoreResult.score h
  have h1 : (Scoring.calculate_credit_score 0 one_transfer_profile).score = 90 := by
    norm_num [Scoring.calculate_credit_score, hta0,
      Scoring.calculate_credit_assessment, Scoring.analyze_nft_quality,
      Scoring.calculate_volatility_risk, Scoring.calculate_token_value,
      Scoring.calculate_nft_value, Scoring.estimate_nft_values,
      Scoring.calculate_stablecoin_score, Scoring.payment_score, Scoring.amounts_score,
      Scoring.history_score, Scoring.new_credit_score, Scoring.mix_score,
      Scoring.reputation_bonus, Scoring.risk_penalty, Scoring.spam_penalty,
      Scoring.spam_ratio, pyInt, one_transfer_profile,
      empty_profile, zero_counts, zero_concentration, no_defi, empty_summary,
      empty_protocol_analysis, min_def, max_def]
  have h2 : (Scoring.calculate_credit_score (974 * 86400) one_transfer_profile).score = 170 := by
    norm_num [Scoring.calculate_credit_score, hta974,
      Scoring.calculate_credit_assessment, Scoring.analyze_nft_quality,
      Scoring.calculate_volatility_risk, Scoring.calculate_token_value,
      Scoring.calculate_nft_value, Scoring.estimate_nft_values,
      Scoring.calculate_stablecoin_score, Scoring.payment_score, Scoring.amounts_score,
      Scoring.history_score, Scoring.new_credit_score, Scoring.mix_score,
      Scoring.reputation_bonus, Scoring.risk_penalty, Scoring.spam_penalty,
      Scoring.spam_ratio, pyInt, one_transfer_profile,
      empty_profile, zero_counts, zero_concentration, no_defi, empty_summary,
      empty_protocol_analysis, min_def, max_def]
  rw [h1, h2] at hs
  exact absurd hs (by norm_num)

end Reputa

namespace Reputa

/-- The classification loop puts every processed NFT into the legit
list and never fills the spam list. -/
theorem classify_loop_legit (l : List NFT) :
    (Classifiers.classify_loop l).2.1 = l.map Classifiers.process_nft ∧
    (Classifiers.classify_loop l).2.2.1 = [] := by
  induction l with
  | nil => exact ⟨rfl, rfl⟩
  | cons a t ih =>
    rcases hcl : Classifiers.classify_loop t with ⟨p, lg, sp, en⟩
    rw [hcl] at ih
    have h1 : lg = t.map Classifiers.process_nft := ih.1
    have h2 : sp = [] := ih.2
    simp only [Classifiers.classify_loop, hcl, List.map_cons]
    cases hc : (Classifiers.process_nft a).classification with
    | none => simp [h1, h2]
    | some c =>
      dsimp only
      split_ifs <;> simp [h1, h2]

/-- C9: classify_nfts appends every input NFT to legit_nfts, so
counts.legit = counts.total and counts.spam = 0; consequently the
spam-ratio of any classifier output is 0 and the spam-ratio risk
penalty branch of the scorer contributes nothing. -/
theorem c9_classifier_spam_free (nfts : List NFT) :
    (Classifiers.classify_nfts nfts).counts.legit = (Classifiers.classify_nfts nfts).counts.total ∧
    (Classifiers.classify_nfts nfts).counts.spam = 0 ∧
    (Classifiers.classify_nfts nfts).legit_nfts = nfts.map Classifiers.process_nft ∧
    Scoring.spam_ratio (Classifiers.classify_nfts nfts).counts = 0 ∧
    Scoring.spam_penalty (Classifiers.classify_nfts nfts).counts = 0 := by
  obtain ⟨hl, hs⟩ := classify_loop_legit nfts
  have hlegit : (Classifiers.classify_nfts nfts).legit_nfts = nfts.map Classifiers.process_nft := by
    simp [Classifiers.classify_nfts, hl]
  have hcl : (Classifiers.classify_nfts nfts).counts.legit = nfts.length := by
    simp [Classifiers.classify_nfts, hl]
  have hct : (Classifiers.classify_nfts nfts).counts.total = nfts.length := rfl
  have hcs : (Classifiers.classify_nfts nfts).counts.spam = 0 := by
    simp [Classifiers.classify_nfts, hs]
  have hratio : Scoring.spam_ratio (Classifiers.classify_nfts nfts).counts = 0 := by
    rw [Scoring.spam_ratio, hcs]
    norm_num
  refine ⟨by rw [hcl, hct], hcs, hlegit, hratio, ?_⟩
  rw [Scoring.spam_penalty, hratio]
  norm_num

end Reputa

namespace Reputa

/-- Counterexample to C8 as stated: a fetched decimals of 0 (a
well-formed, nonnegative integer) is replaced by 18, because
`metadata.get('decimals') or 18` treats 0 as falsy. -/
theorem c8_counterexample :
    Services.decimals_used (some (.int 0)) = 18 ∧
    Services.decimals_claim (some (.int 0)) = 0 ∧
    Services.decimals_used (some (.int 0)) ≠ Services.decimals_claim (some (.int 0)) := by
  refine ⟨by decide, by decide, by decide⟩

/-- C8 (amended): the decimals used for the human-readable balance equal
the fetched decimals exactly when the fetched value is a strictly
positive integer; they are 18 when the fetched decimals is missing,
non-integer, negative, or zero.  The balance divides by 10 to that
power. -/
theorem c8_decimals_characterization (fetched : Option Services.PyNum) (balance_int : ℤ) :
    Services.decimals_used fetched
      = (match fetched with
         | some (.int z) => if 0 < z then z else 18
         | some (.float _) => 18
         | none => 18) ∧
    Services.balance_human balance_int fetched
      = (balance_int : ℚ) / (10 : ℚ) ^ (Services.decimals_used fetched).toNat := by
  refine ⟨?_, rfl⟩
  rcases fetched with _ | v
  · rfl
  rcases v with z | q
  · rcases lt_trichotomy z 0 with h | h | h
    · have hne : z ≠ 0 := by omega
      have hnlt : ¬(0 : ℤ) < z := by omega
      simp [Services.decimals_used, Services.PyNum.truthy, h, hne, hnlt]
    · subst h
      simp [Services.decimals_used, Services.PyNum.truthy]
    · have hne : z ≠ 0 := by omega
      have hnlt : ¬z < 0 := by omega
      simp [Services.decimals_used, Services.PyNum.truthy, h, hne, hnlt]
  · by_cases h : q = 0 <;>
      simp [Services.decimals_used, Services.PyNum.truthy, h]

/-- The repay scan of the timeline matcher is List.find? with the
strictly-after predicate. -/
theorem find_matching_repay_eq_find? (t : ℤ) (l : List PTx) :
    Services.find_matching_repay t l = l.find? (fun r => t < r.timestamp) := by
  induction l with
  | nil => rfl
  | cons a as ih =>
    by_cases h : t < a.timestamp <;>
      simp [Services.find_matching_repay, List.find?_cons, h, ih]

/-- The per-borrow timeline of the source equals the claim-side record. -/
theorem timeline_for_borrow_eq_claim (protocol_name : String) (repays : List PTx) (b : PTx) :
    Services.timeline_for_borrow protocol_name repays b = timeline_claim protocol_name repays b := by
  unfold Services.timeline_for_borrow timeline_claim
  rw [find_matching_repay_eq_find?]

/-- C5: in extract_repayment_timelines every borrow event (in
per-protocol encounter order) is matched with the first repay event of
that protocol whose timestamp is strictly after the borrow's, an
outstanding record is produced when none exists, and a single repay can
be the match of several borrows (two borrows preceding one repay both
receive it). -/
theorem c5_repayment_matching :
    (∀ pa : ProtocolAnalysis,
      (Services.extract_repayment_timelines pa).timelines
        = pa.protocols.flatMap (fun entry =>
            (entry.2.transactions.filter (fun tx => tx.event_type == "borrow")).map
              (timeline_claim entry.2.protocol_name
                (entry.2.transactions.filter (fun tx => tx.event_type == "repay"))))) ∧
    ((Services.extract_repayment_timelines two_borrows_one_repay).timelines.map
        (fun t => (t.status, t.repay_tx)))
      = [("repaid", some "r1"), ("repaid", some "r1")] := by
  constructor
  · intro pa
    have hfun : Services.timeline_for_borrow = timeline_claim := by
      funext a b c
      exact timeline_for_borrow_eq_claim a b c
    simp only [Services.extract_repayment_timelines, hfun]
  · decide

end Reputa

namespace Reputa

/-- The consecutive-pairs return loop as a zip-with-tail filterMap. -/
theorem daily_returns_eq_zip (l : List ℚ) :
    Services.daily_returns l
      = (l.zip l.tail).filterMap
          (fun p => if 0 < p.1 ∧ p.2 ≠ 0 then some ((p.2 - p.1) / p.1) else none) := by
  induction l with
  | nil => rfl
  | cons a t ih =>
    cases t with
    | nil => rfl
    | cons b r =>
      by_cases h : 0 < a ∧ b ≠ 0
      · have h3 : a ≠ 0 ∧ b ≠ 0 ∧ 0 < a := ⟨ne_of_gt h.1, h.2, h.1⟩
        simp only [Services.daily_returns, if_pos h3, List.tail_cons, List.zip_cons_cons,
          List.filterMap_cons, if_pos h, List.tail_cons] at ih ⊢
        simp [ih]
      · have h3 : ¬(a ≠ 0 ∧ b ≠ 0 ∧ 0 < a) := by tauto
        simp only [Services.daily_returns, if_neg h3, List.tail_cons, List.zip_cons_cons,
          List.filterMap_cons, if_neg h, List.tail_cons] at ih ⊢
        simp [ih]

/-- Population variance is nonnegative. -/
theorem pop_variance_nonneg (l : List ℚ) : 0 ≤ Services.pop_variance l := by
  unfold Services.pop_variance
  refine div_nonneg (List.sum_nonneg ?_) (by positivity)
  intro x hx
  obtain ⟨r, _, rfl⟩ := List.mem_map.mp hx
  positivity

/-- Expanding the squared deviation sum. -/
theorem map_sub_sq_sum (l : List ℚ) (m : ℚ) :
    (l.map (fun r => (r - m) ^ 2)).sum
      = (l.map (fun r => r ^ 2)).sum - 2 * m * l.sum + l.length * m ^ 2 := by
  induction l with
  | nil => simp
  | cons a t ih =>
    simp only [List.map_cons, List.sum_cons, ih, List.length_cons]
    push_cast
    ring

/-- Population variance in moment form. -/
theorem pop_variance_eq (l : List ℚ) (h : l ≠ []) :
    Services.pop_variance l
      = ((l.length : ℚ) * (l.map (fun r => r ^ 2)).sum - l.sum ^ 2) / (l.length : ℚ) ^ 2 := by
  have hn : (l.length : ℚ) ≠ 0 := by
    exact_mod_cast Nat.cast_ne_zero.mpr (fun hc => h (List.length_eq_zero.mp hc))
  simp only [Services.pop_variance]
  rw [map_sub_sq_sum]
  field_simp
  ring

/-- C6 (amended): calculate_volatility returns null when the fetched
series has fewer than 2 points, fewer than 2 valid (present, nonzero)
prices, or no surviving returns; otherwise it returns the population
variance (in moment form) of the returns taken between *consecutive
valid* prices — a zero or missing day bridges its neighbours into one
return rather than discarding the pair — keeping only pairs whose
earlier price is strictly positive.  (Stated on the squared volatility;
squaring is injective on nonnegative reals.) -/
theorem c6_gap_bridging_characterization (prices : List (Option ℚ)) :
    Services.calculate_volatility_sq prices
      = (if prices.length < 2 then none
         else if (Services.price_values prices).length < 2 then none
         else
           let pv := Services.price_values prices
           let returns := (pv.zip pv.tail).filterMap
             (fun p => if 0 < p.1 ∧ p.2 ≠ 0 then some ((p.2 - p.1) / p.1) else none)
           if returns = [] then none
           else some ((((returns.length : ℚ) * (returns.map (fun r => r ^ 2)).sum
                - returns.sum ^ 2) / (returns.length : ℚ) ^ 2) * 10000)) := by
  unfold Services.calculate_volatility_sq
  by_cases h1 : prices.length < 2
  · rw [if_pos h1, if_pos h1]
  rw [if_neg h1, if_neg h1]
  by_cases h2 : (Services.price_values prices).length < 2
  · rw [if_pos h2, if_pos h2]
  rw [if_neg h2, if_neg h2]
  rw [daily_returns_eq_zip]
  by_cases h3 : ((Services.price_values prices).zip (Services.price_values prices).tail).filterMap
      (fun p => if 0 < p.1 ∧ p.2 ≠ 0 then some ((p.2 - p.1) / p.1) else none) = []
  · rw [if_pos h3, if_pos h3]
  rw [if_neg h3, if_neg h3]
  rw [if_neg (not_lt.mpr (pop_variance_nonneg _))]
  rw [pop_variance_eq _ h3]

/-- Counterexample to C6 as stated: on the series [1, 2, 0, 8] the code
pairs 2 with 8 across the zero day (returns [1, 3], variance 1, squared
volatility 10000), while the claimed skip-the-pair rule keeps only the
return between days 1 and 2 (returns [1], variance 0). -/
theorem c6_counterexample :
    Services.calculate_volatility_sq gapped_prices = some 10000 ∧
    Services.volatility_spec_sq gapped_prices = some 0 ∧
    Services.calculate_volatility_sq gapped_prices ≠ Services.volatility_spec_sq gapped_prices := by
  have h1 : Services.calculate_volatility_sq gapped_prices = some 10000 := by
    norm_num [Services.calculate_volatility_sq, Services.price_values, Services.daily_returns,
      Services.pop_variance, gapped_prices, List.filterMap_cons, List.filter_cons,
      List.filter_nil, List.cons_ne_nil]
  have h2 : Services.volatility_spec_sq gapped_prices = some 0 := by
    norm_num [Services.volatility_spec_sq, Services.pop_variance, gapped_prices,
      List.filterMap_cons, List.filter_cons, List.filter_nil, List.zip_cons_cons,
      List.tail_cons]
  refine ⟨h1, h2, ?_⟩
  rw [h1, h2]
  simp

end Reputa

namespace Reputa

/-- For nonnegative entries, the sum of squares is at most the square
of the sum. -/
theorem sum_sq_le_sq_sum (l : List ℚ) (h : ∀ x ∈ l, 0 ≤ x) :
    (l.map (fun x => x ^ 2)).sum ≤ l.sum ^ 2 := by
  induction l with
  | nil => simp
  | cons a t ih =>
    simp only [List.map_cons, List.sum_cons]
    have ha : 0 ≤ a := h a (by simp)
    have ht : ∀ x ∈ t, 0 ≤ x := fun x hx => h x (by simp [hx])
    have hts : 0 ≤ t.sum := List.sum_nonneg ht
    nlinarith [ih ht, mul_nonneg ha hts]

/-- For nonnegative entries, prefix sums are monotone in the prefix
length. -/
theorem sum_take_le (l : List ℚ) (h : ∀ x ∈ l, 0 ≤ x) {m n : ℕ} (hmn : m ≤ n) :
    (l.take m).sum ≤ (l.take n).sum := by
  have h1 : l.take m = (l.take n).take m := by
    rw [List.take_take, Nat.min_eq_left hmn]
  rw [h1]
  conv_rhs => rw [← List.take_append_drop m (l.take n)]
  rw [List.sum_append]
  have h2 : 0 ≤ ((l.take n).drop m).sum :=
    List.sum_nonneg fun x hx => h x (List.take_subset n l (List.drop_subset _ _ hx))
  linarith

/-- C7: on any non-empty holdings list (with the data-model fact that
each value_usd is nonnegative) the Herfindahl index lies in [0, 1] and
the top-1/top-3/top-5 concentrations are monotone. -/
theorem c7_concentration_bounds (enriched_tokens : List EnrichedToken)
    (hne : enriched_tokens ≠ [])
    (hnn : ∀ t ∈ enriched_tokens, 0 ≤ t.value_usd) :
    0 ≤ (Services.calculate_portfolio_concentration enriched_tokens).herfindahl_index ∧
    (Services.calculate_portfolio_concentration enriched_tokens).herfindahl_index ≤ 1 ∧
    (Services.calculate_portfolio_concentration enriched_tokens).top_1_concentration
      ≤ (Services.calculate_portfolio_concentration enriched_tokens).top_3_concentration ∧
    (Services.calculate_portfolio_concentration enriched_tokens).top_3_concentration
      ≤ (Services.calculate_portfolio_concentration enriched_tokens).top_5_concentration := by
  unfold Services.calculate_portfolio_concentration
  rw [if_neg hne]
  dsimp only
  by_cases h0 : (enriched_tokens.map (·.value_usd)).sum = 0
  · rw [if_pos h0]
    norm_num
  rw [if_neg h0]
  set T := (enriched_tokens.map (·.value_usd)).sum with hT
  have hTnn : 0 ≤ T :=
    List.sum_nonneg fun x hx => by
      obtain ⟨t, ht, rfl⟩ := List.mem_map.mp hx
      exact hnn t ht
  have hTpos : 0 < T := lt_of_le_of_ne hTnn (Ne.symm h0)
  set sorted := List.insertionSort (fun a b : EnrichedToken => b.value_usd ≤ a.value_usd)
    enriched_tokens with hsorted
  have hperm : sorted.Perm enriched_tokens := List.perm_insertionSort _ _
  have hvnn : ∀ x ∈ sorted.map (·.value_usd), 0 ≤ x := fun x hx => by
    obtain ⟨t, ht, rfl⟩ := List.mem_map.mp hx
    exact hnn t (hperm.mem_iff.mp ht)
  have hsne : sorted ≠ [] := fun hc => hne (List.Perm.eq_nil (hc ▸ hperm).symm)
  refine ⟨?_, ?_, ?_, ?_⟩
  · exact List.sum_nonneg fun x hx => by
      obtain ⟨t, _, rfl⟩ := List.mem_map.mp hx
      positivity
  · have hmm : enriched_tokens.map (fun t => (t.value_usd / T) ^ 2)
        = (enriched_tokens.map (fun t => t.value_usd / T)).map (fun x => x ^ 2) := by
      simp [List.map_map]
    rw [hmm]
    have hdiv : (enriched_tokens.map (fun t => t.value_usd / T)).sum = 1 := by
      have : (enriched_tokens.map (fun t => t.value_usd / T)).sum
          = (enriched_tokens.map (·.value_usd)).sum / T := by
        simp only [div_eq_mul_inv]
        rw [← List.sum_map_mul_right]
      rw [this, ← hT, div_self (ne_of_gt hTpos)]
    have := sum_sq_le_sq_sum (enriched_tokens.map (fun t => t.value_usd / T))
      (fun x hx => by
        obtain ⟨t, ht, rfl⟩ := List.mem_map.mp hx
        exact div_nonneg (hnn t ht) hTnn)
    rw [hdiv] at this
    simpa using this
  · rcases hsv : sorted with _ | ⟨t0, rest⟩
    · exact absurd hsv hsne
    rw [← hsv]
    by_cases h3 : 3 ≤ sorted.length
    · rw [if_pos h3]
      have hhead : (match sorted with
          | t :: _ => t.value_usd / T
          | [] => 0) = ((sorted.map (·.value_usd)).take 1).sum / T := by
        rw [hsv]
        simp
      rw [hhead]
      have htake : ((sorted.take 3).map (·.value_usd)).sum
          = ((sorted.map (·.value_usd)).take 3).sum := by
        rw [List.map_take]
      rw [htake]
      have := sum_take_le (sorted.map (·.value_usd)) hvnn (by omega : 1 ≤ 3)
      exact div_le_div_of_nonneg_right this hTnn
    · rw [if_neg h3]
  · by_cases h5 : 5 ≤ sorted.length
    · rw [if_pos h5, if_pos (by omega : 3 ≤ sorted.length)]
      have htake3 : ((sorted.take 3).map (·.value_usd)).sum
          = ((sorted.map (·.value_usd)).take 3).sum := by rw [List.map_take]
      have htake5 : ((sorted.take 5).map (·.value_usd)).sum
          = ((sorted.map (·.value_usd)).take 5).sum := by rw [List.map_take]
      rw [htake3, htake5]
      have := sum_take_le (sorted.map (·.value_usd)) hvnn (by omega : 3 ≤ 5)
      exact div_le_div_of_nonneg_right this hTnn
    · rw [if_neg h5]

/-- Witness for C7 at a concrete single-token portfolio. -/
theorem c7_witness :
    0 ≤ (Services.calculate_portfolio_concentration
        [{ value_usd := 100, volatility_30d := none }]).herfindahl_index ∧
    (Services.calculate_portfolio_concentration
        [{ value_usd := 100, volatility_30d := none }]).herfindahl_index ≤ 1 ∧
    (Services.calculate_portfolio_concentration
        [{ value_usd := 100, volatility_30d := none }]).top_1_concentration
      ≤ (Services.calculate_portfolio_concentration
        [{ value_usd := 100, volatility_30d := none }]).top_3_concentration ∧
    (Services.calculate_portfolio_concentration
        [{ value_usd := 100, volatility_30d := none }]).top_3_concentration
      ≤ (Services.calculate_portfolio_concentration
        [{ value_usd := 100, volatility_30d := none }]).top_5_concentration :=
  c7_concentration_bounds [{ value_usd := 100, volatility_30d := none }]
    (by simp)
    (by
      intro t ht
      simp only [List.mem_singleton] at ht
      subst ht
      norm_num)

end Reputa
